import Mathlib

/-!
Shallow embedding of the riser-playground layout compiler.

The definitions below translate the routing code of
`src/layout/elkLayout.ts` (the current revision: the pure node/edge
construction that runs after the external ELK call, the manual bus router,
the PANEL-device stubs, and the `createManualLayout` fallback used when the
external engine throws), the pure graph-building part of
`src/layout/dslCompiler.ts`, and the line-style decision of `src/App.tsx`.

Modelling conventions:
* Coordinates are integers (`ℤ`).  Every arithmetic operation performed by
  the routing code on coordinates is addition, subtraction, `max`, and a
  division of a symbol width by 2; all symbol widths in the table (and the
  default 20) are even, so integer division matches the JavaScript float
  division exactly on integer-coordinate specs.
* The value returned by the external ELK engine is never consumed by the
  current code (the success branch rebuilds all geometry from the input
  spec), so `elkLayout` is modelled as a pure function of the spec together
  with one boolean recording whether the engine invocation threw.  The
  `try/catch` is modelled by that boolean: the function is total and never
  propagates a failure.
* JavaScript `x || d` on numbers is modelled by `jsNumOr` (`0` and a missing
  value fall back to `d`); `Array.prototype.sort` with comparator
  `(a, b) => a.x - b.x` is a stable ascending sort by `x`, modelled by the
  stable `insertionSort` (any two stable sorts by the same key agree on
  every input); `Array.prototype.indexOf` applied to an element obtained
  from `filter` returns the original index of that element, modelled by
  carrying `enum` indices through the filter; `String.prototype.startsWith`
  is modelled by `jsStartsWith`.
* JavaScript `Map` results are modelled as lists in insertion order.
-/

namespace Riser

/-- Two-dimensional point with integer coordinates. -/
structure Point where
  x : ℤ
  y : ℤ
deriving DecidableEq, Repr

/-- Symbol bounding-box size, an entry of the `SYMBOL_SIZES` table. -/
structure Size where
  width : ℤ
  height : ℤ
deriving DecidableEq, Repr

/-- Legacy-spec device record (`interface Device` in `elkLayout.ts`). -/
structure Device where
  type : String
  circuit : String
  x : ℤ
  y : ℤ
deriving DecidableEq, Repr

/-- Legacy-spec circuit record (`interface Circuit`).  The source field
`class` is a Lean keyword, rendered here as `cls`. -/
structure Circuit where
  id : String
  cls : String
  color : String
deriving DecidableEq, Repr

/-- Legacy-spec end-of-line record (`interface EOL`); `drop` is optional. -/
structure EOL where
  circuit : String
  x : ℤ
  drop : Option ℤ
deriving DecidableEq, Repr

/-- Panel position (`spec.panel`). -/
structure Panel where
  x : ℤ
  y : ℤ
deriving DecidableEq, Repr

/-- Legacy layout spec (`interface LayoutSpec` in `elkLayout.ts`). -/
structure LayoutSpec where
  title : String
  panel : Panel
  circuits : List Circuit
  devices : List Device
  eols : List EOL
deriving DecidableEq, Repr

/-- The `SYMBOL_SIZES` table of `elkLayout.ts`. -/
def SYMBOL_SIZES (t : String) : Option Size :=
  if t = "FACP" then some ⟨40, 20⟩
  else if t = "Cell" then some ⟨30, 15⟩
  else if t = "Smoke" then some ⟨14, 14⟩
  else if t = "Pull" then some ⟨12, 12⟩
  else if t = "EOL" then some ⟨12, 6⟩
  else none

/-- JavaScript `v || dflt` on an optional number: a missing value and the
falsy number `0` both fall back to the default. -/
def jsNumOr (v : Option ℤ) (dflt : ℤ) : ℤ :=
  match v with
  | none => dflt
  | some q => if q = 0 then dflt else q

/-- Model of `SYMBOL_SIZES[t]?.height || 20`. -/
def heightOr20 (t : String) : ℤ :=
  jsNumOr ((SYMBOL_SIZES t).map Size.height) 20

/-- Model of `SYMBOL_SIZES[t]?.width || 20`. -/
def widthOr20 (t : String) : ℤ :=
  jsNumOr ((SYMBOL_SIZES t).map Size.width) 20

/-- Model of `SYMBOL_SIZES[t] || { width: 20, height: 20 }` (node sizing). -/
def sizeOfType (t : String) : Size :=
  (SYMBOL_SIZES t).getD ⟨20, 20⟩

/-- The `SYMBOL_SIZES.FACP` entry, read directly by the routing code. -/
def facpSize : Size := ⟨40, 20⟩

/-- Bottom edge used by the bus-elevation computation:
`device.y + (SYMBOL_SIZES[device.type]?.height || 20)`. -/
def deviceBottom (d : Device) : ℤ := d.y + heightOr20 d.type

/-- Horizontal wire position of a device:
`device.x + (SYMBOL_SIZES[device.type]?.width || 20) / 2`. -/
def deviceCenterX (d : Device) : ℤ := d.x + widthOr20 d.type / 2

/-- `panelX = spec.panel.x + SYMBOL_SIZES.FACP.width / 2`. -/
def panelAttachX (spec : LayoutSpec) : ℤ := spec.panel.x + facpSize.width / 2

/-- `panelY = spec.panel.y + SYMBOL_SIZES.FACP.height`. -/
def panelAttachY (spec : LayoutSpec) : ℤ := spec.panel.y + facpSize.height

/-- The panel attachment point `(panelX, panelY)` every manual path starts at. -/
def panelAttach (spec : LayoutSpec) : Point :=
  ⟨panelAttachX spec, panelAttachY spec⟩

/-- Devices of one circuit in declaration order
(`spec.devices.filter(d => d.circuit === cid)`). -/
def circuitDevices (spec : LayoutSpec) (cid : String) : List Device :=
  spec.devices.filter (fun d => d.circuit == cid)

/-- Devices of one circuit paired with their index in `spec.devices`;
the index models JavaScript `spec.devices.indexOf(device)` applied to an
element obtained from `filter` (reference equality returns the original
position). -/
def circuitDevicesIdx (spec : LayoutSpec) (cid : String) : List (ℕ × Device) :=
  spec.devices.enum.filter (fun p => p.2.circuit == cid)

/-- Comparison used by the device sort: ascending device `x`. -/
def devLe (a b : ℕ × Device) : Prop := a.2.x ≤ b.2.x

instance : DecidableRel devLe := fun a b => Int.decLe a.2.x b.2.x

instance : IsTotal (ℕ × Device) devLe := ⟨fun a b => Int.le_total a.2.x b.2.x⟩

instance : IsTrans (ℕ × Device) devLe := ⟨fun _ _ _ h1 h2 => Int.le_trans h1 h2⟩

instance : RightCommutative (max : ℤ → ℤ → ℤ) :=
  ⟨fun a b c => by rw [max_assoc, max_comm b c, ← max_assoc]⟩

/-- Devices of the circuit sorted by `x` ascending
(`.sort((a, b) => a.x - b.x)`, a stable sort), with original indices. -/
def busDevsIdx (spec : LayoutSpec) (cid : String) : List (ℕ × Device) :=
  (circuitDevicesIdx spec cid).insertionSort devLe

/-- Devices of the circuit in the order the bus polyline visits them. -/
def busDevices (spec : LayoutSpec) (cid : String) : List Device :=
  (busDevsIdx spec cid).map Prod.snd

/-- Model of
`circuitDevices.length > 0 ? Math.max(...circuitDevices.map(d => d.y + (SYMBOL_SIZES[d.type]?.height || 20))) : 100`.
The bus-construction call sites only reach the nonempty branch. -/
def lowestBottomOr100 (l : List Device) : ℤ :=
  match l.map deviceBottom with
  | [] => 100
  | b :: bs => bs.foldl max b

/-- Bus elevation computed from the unsorted filtered device list, as in the
EOL-node creation code (`const busY = lowestBottom + 5`). -/
def busYOf (spec : LayoutSpec) (cid : String) : ℤ :=
  lowestBottomOr100 (circuitDevices spec cid) + 5

/-- Bus elevation computed from the sorted device list, as in the manual bus
construction (same value; the source recomputes it there). -/
def busYSorted (spec : LayoutSpec) (cid : String) : ℤ :=
  lowestBottomOr100 (busDevices spec cid) + 5

/-- First EOL entry naming the circuit (`spec.eols?.find(e => e.circuit === cid)`). -/
def findEOL (spec : LayoutSpec) (cid : String) : Option EOL :=
  spec.eols.find? (fun e => e.circuit == cid)

/-- Index used in `eol-${spec.eols?.indexOf(eol) ?? 0}` for the found entry. -/
def eolIdxOf (spec : LayoutSpec) (cid : String) : ℕ :=
  spec.eols.findIdx (fun e => e.circuit == cid)

/-- `const dropLen = eol.drop || 4`. -/
def dropLen (e : EOL) : ℤ := jsNumOr e.drop 4

/-- Per-device bus points from the loop body: for position `i`, a horizontal
move when `i > 0`, the vertical drop to `device.y`, and the return to the
bus. -/
def deviceChainPoints (bY : ℤ) (devs : List Device) : List Point :=
  devs.enum.flatMap (fun p =>
    (if 0 < p.1 then [⟨deviceCenterX p.2, bY⟩] else [])
      ++ [⟨deviceCenterX p.2, p.2.y⟩, ⟨deviceCenterX p.2, bY⟩])

/-- EOL extension of the bus polyline: horizontal to `eol.x`, then the drop. -/
def eolPoints (spec : LayoutSpec) (cid : String) (bY : ℤ) : List Point :=
  match findEOL spec cid with
  | none => []
  | some e => [⟨e.x, bY⟩, ⟨e.x, bY + dropLen e⟩]

/-- The complete bus polyline of one circuit, empty when the circuit has no
devices (the source returns early in that case and emits nothing). -/
def busPoints (spec : LayoutSpec) (cid : String) : List Point :=
  match busDevices spec cid with
  | [] => []
  | d0 :: _ =>
    [panelAttach spec,
     ⟨panelAttachX spec, busYSorted spec cid⟩,
     ⟨deviceCenterX d0, busYSorted spec cid⟩]
      ++ deviceChainPoints (busYSorted spec cid) (busDevices spec cid)
      ++ eolPoints spec cid (busYSorted spec cid)

/-- An entry of `result.edges` (id, source, target, bend points, color). -/
structure EdgeOut where
  id : String
  source : String
  target : String
  bendPoints : List Point
  color : String
deriving DecidableEq, Repr

/-- An entry of `result.nodes` (position and size). -/
structure NodeBox where
  x : ℤ
  y : ℤ
  width : ℤ
  height : ℤ
deriving DecidableEq, Repr

/-- The result record of `elkLayout` (maps rendered as ordered lists). -/
structure LayoutResult where
  nodes : List (String × NodeBox)
  edges : List EdgeOut
deriving DecidableEq, Repr

/-- The single bus edge of a circuit, or `none` for a device-less circuit. -/
def busEdge (spec : LayoutSpec) (c : Circuit) : Option EdgeOut :=
  match busDevsIdx spec c.id with
  | [] => none
  | d0 :: rest =>
    some
      { id := c.id ++ "-bus"
        source := "panel"
        target :=
          match findEOL spec c.id with
          | some _ => "eol-" ++ toString (eolIdxOf spec c.id)
          | none =>
            "device-" ++ toString ((d0 :: rest).getLast (List.cons_ne_nil _ _)).1
        bendPoints := busPoints spec c.id
        color := c.color }

/-- The three-point stubs for devices whose circuit id is `"PANEL"`. -/
def panelStubs (spec : LayoutSpec) : List EdgeOut :=
  (circuitDevicesIdx spec "PANEL").enum.map (fun q =>
    { id := "panel-stub-" ++ toString q.1
      source := "panel"
      target := "device-" ++ toString q.2.1
      bendPoints :=
        [panelAttach spec,
         ⟨panelAttachX spec, q.2.2.y⟩,
         ⟨deviceCenterX q.2.2, q.2.2.y⟩]
      color := "black" })

/-- The panel node of the result. -/
def panelNode (spec : LayoutSpec) : String × NodeBox :=
  ("panel", ⟨spec.panel.x, spec.panel.y, facpSize.width, facpSize.height⟩)

/-- One node per device, at its original position, sized from the table. -/
def deviceNodes (spec : LayoutSpec) : List (String × NodeBox) :=
  spec.devices.enum.map (fun p =>
    ("device-" ++ toString p.1,
     ⟨p.2.x, p.2.y, (sizeOfType p.2.type).width, (sizeOfType p.2.type).height⟩))

/-- EOL nodes: one per EOL entry whose named circuit is declared, placed at
`(eol.x - 6, busY + dropLen - 3)` with the `EOL` symbol size. -/
def eolNodes (spec : LayoutSpec) : List (String × NodeBox) :=
  spec.eols.enum.filterMap (fun p =>
    if spec.circuits.any (fun c => c.id == p.2.circuit) then
      some ("eol-" ++ toString p.1,
            ⟨p.2.x - 6, busYOf spec p.2.circuit + dropLen p.2 - 3, 12, 6⟩)
    else none)

/-- The result of `elkLayout` when the ELK call succeeds: the code ignores
the positions returned by ELK, re-emits the node positions of the spec, and
builds all circuit buses and PANEL stubs manually. -/
def elkSuccess (spec : LayoutSpec) : LayoutResult :=
  { nodes := panelNode spec :: (deviceNodes spec ++ eolNodes spec)
    edges := spec.circuits.filterMap (busEdge spec) ++ panelStubs spec }

/-- The fallback `createManualLayout`: panel and device nodes only, and one
straight two-point connection from the panel attachment point to each
circuit device. -/
def createManualLayout (spec : LayoutSpec) : LayoutResult :=
  { nodes := panelNode spec :: deviceNodes spec
    edges :=
      spec.circuits.flatMap (fun c =>
        (circuitDevicesIdx spec c.id).enum.map (fun q =>
          { id := c.id ++ "-" ++ toString q.1
            source := "panel"
            target := "device-" ++ toString q.2.1
            bendPoints := [panelAttach spec, ⟨deviceCenterX q.2.2, q.2.2.y⟩]
            color := c.color })) }

/-- The whole of `elkLayout`: `elkFails` records whether the external ELK
invocation threw; the `catch` branch returns the manual fallback, so the
function is total and never re-raises the solver failure. -/
def elkLayout (elkFails : Bool) (spec : LayoutSpec) : LayoutResult :=
  if elkFails then createManualLayout spec else elkSuccess spec

/-- JavaScript `s.startsWith(pre)`: the character sequence of `pre` is a
prefix of the character sequence of `s`. -/
def jsStartsWith (s pre : String) : Bool := pre.data.isPrefixOf s.data

/-- Line-style decision of `App.tsx` (`Riser` renderer): for each rendered
edge, `if (edge.circuitId === "NAC1" || edge.circuitId?.startsWith("NAC"))`
sets `dashArray = "3,2"`, otherwise no dash array (solid).  Legacy edges
carry no `circuitId` (the option is `none`) and so are solid. -/
def appDashArray (circuitId : Option String) : Option String :=
  match circuitId with
  | none => none
  | some s => if s == "NAC1" || jsStartsWith s "NAC" then some "3,2" else none

/-- Declarative (DSL) panel port (`interface DSLPort`). -/
structure DSLPort where
  id : String
  side : String
  label : String
deriving DecidableEq, Repr

/-- Declarative panel (`interface DSLPanel`). -/
structure DSLPanel where
  id : String
  ports : List DSLPort
deriving DecidableEq, Repr

/-- Declarative device: only a type name. -/
structure DSLDevice where
  type : String
deriving DecidableEq, Repr

/-- Declarative circuit end-cap. -/
structure DSLEndcap where
  type : String
  value : Option String
deriving DecidableEq, Repr

/-- Declarative circuit (`interface DSLCircuit`); `from` is flattened into
`fromPanel`/`fromPort`. -/
structure DSLCircuit where
  id : String
  fromPanel : String
  fromPort : String
  orientation : String
  spacing : ℤ
  devices : List DSLDevice
  endcap : DSLEndcap
deriving DecidableEq, Repr

/-- Declarative spec (`interface DSLSpec`); the `symbols` record is a keyed
list. -/
structure DSLSpec where
  title : String
  laneGap : Option ℤ
  panel : DSLPanel
  circuits : List DSLCircuit
  symbols : List (String × Size)
deriving DecidableEq, Repr

/-- Model of `dslSpec.symbols[t] || { w: 20, h: 20 }`. -/
def dslSymbolSize (symbols : List (String × Size)) (t : String) : Size :=
  ((symbols.find? (fun p => p.1 == t)).map Prod.snd).getD ⟨20, 20⟩

/-- Node id `circuit-${circuit.id}-device-${i}`. -/
def dslDeviceId (cid : String) (i : ℕ) : String :=
  "circuit-" ++ cid ++ "-device-" ++ toString i

/-- Node id `circuit-${circuit.id}-endcap`. -/
def dslEndcapId (cid : String) : String := "circuit-" ++ cid ++ "-endcap"

/-- An ELK edge built by `compileDSLToELK` (sources/targets are single). -/
structure DslEdge where
  id : String
  source : String
  target : String
  sourcePort : Option String
deriving DecidableEq, Repr

/-- A node built by `compileDSLToELK`: id, symbol size, partition index
(0 for WEST circuits, 1 for the panel, 2 for EAST circuits). -/
structure DslNode where
  id : String
  width : ℤ
  height : ℤ
  partition : ℕ
deriving DecidableEq, Repr

/-- Device-chain and end-cap nodes of one declarative circuit. -/
def dslCircuitNodes (symbols : List (String × Size)) (c : DSLCircuit) :
    List DslNode :=
  let part : ℕ := if c.orientation == "WEST" then 0 else 2
  c.devices.enum.map (fun p =>
    { id := dslDeviceId c.id p.1
      width := (dslSymbolSize symbols p.2.type).width
      height := (dslSymbolSize symbols p.2.type).height
      partition := part })
    ++ [{ id := dslEndcapId c.id
          width := (dslSymbolSize symbols c.endcap.type).width
          height := (dslSymbolSize symbols c.endcap.type).height
          partition := part }]

/-- Edges of one declarative circuit, exactly as the chain loop builds them:
the first device edge leaves the panel with source port
`${panelId}.${circuit.from.port}`, later device edges carry the cleared
(empty-string) port, and the end-cap edge is pushed without a source port. -/
def dslCircuitEdges (panelId : String) (c : DSLCircuit) : List DslEdge :=
  c.devices.enum.map (fun p =>
    { id := "edge-" ++ c.id ++ "-" ++ toString p.1
      source := if p.1 = 0 then panelId else dslDeviceId c.id (p.1 - 1)
      target := dslDeviceId c.id p.1
      sourcePort :=
        some (if p.1 = 0 then panelId ++ "." ++ c.fromPort else "") })
    ++ [{ id := "edge-" ++ c.id ++ "-endcap"
          source :=
            if c.devices.isEmpty then panelId
            else dslDeviceId c.id (c.devices.length - 1)
          target := dslEndcapId c.id
          sourcePort := none }]

/-- All edges `compileDSLToELK` hands to the external engine.  The builder is
total: no validation of `circuit.from.port` against `panel.ports` happens
anywhere before the engine is invoked, and an engine error is re-thrown
unchanged (`throw error`). -/
def dslEdges (spec : DSLSpec) : List DslEdge :=
  spec.circuits.flatMap (dslCircuitEdges spec.panel.id)

/-- All non-panel nodes `compileDSLToELK` builds. -/
def dslNodes (spec : DSLSpec) : List DslNode :=
  spec.circuits.flatMap (dslCircuitNodes spec.symbols)

/-- The port ids actually declared on the panel node
(`${panelId}.${port.id}` for each declared port). -/
def panelPortIds (spec : DSLSpec) : List String :=
  spec.panel.ports.map (fun p => spec.panel.id ++ "." ++ p.id)

/-! Claim-side definitions.  These follow the wording of the specification
sentences under test (not the source), so that the theorems below can compare
the two. -/

/-- Bottom offset exactly as the claims word it: the bottom offset of the
symbol type from the size table, `20` when the type is unknown. -/
def claimBottomOffset (t : String) : ℤ :=
  match SYMBOL_SIZES t with
  | some s => s.height
  | none => 20

/-- Bus elevation exactly as claim C1 words it: the maximum over the devices
of the circuit (in declaration order) of `device.y + bottom offset`, plus
the fixed clearance of 5 units. -/
def claimBusElevation (spec : LayoutSpec) (cid : String) : ℤ :=
  match ((circuitDevices spec cid).map
      (fun d => d.y + claimBottomOffset d.type)).max? with
  | some m => m + 5
  | none => 0

/-- The centre point of a device, the end point claim C2 asserts for the
fallback connections. -/
def claimDeviceCenter (d : Device) : Point :=
  ⟨d.x + widthOr20 d.type / 2, d.y + heightOr20 d.type / 2⟩

/-- The polyline claim C5 asserts: identical to the emitted one except that
every vertical device drop is claimed to terminate at the bottom edge of
the device (`device.y + bottom offset`) instead of where the code stops
it. -/
def claimBusPolyline (spec : LayoutSpec) (cid : String) : List Point :=
  match busDevices spec cid with
  | [] => []
  | _ =>
    [panelAttach spec, ⟨panelAttachX spec, busYSorted spec cid⟩]
      ++ (busDevices spec cid).flatMap (fun d =>
        [⟨deviceCenterX d, busYSorted spec cid⟩,
         ⟨deviceCenterX d, d.y + claimBottomOffset d.type⟩,
         ⟨deviceCenterX d, busYSorted spec cid⟩])
      ++ eolPoints spec cid (busYSorted spec cid)

/-! Concrete inputs used by the witnesses and counterexamples below. -/

/-- Concrete legacy spec for the C1 witness (devices declared right-to-left). -/
def exC1 : LayoutSpec :=
  { title := "T", panel := ⟨100, 40⟩
    circuits := [⟨"SLC", "B", "black"⟩]
    devices := [⟨"Pull", "SLC", 60, 100⟩, ⟨"Smoke", "SLC", 30, 100⟩]
    eols := [] }

/-- Permutation of the `exC1` device list. -/
def exC1devs : List Device :=
  [⟨"Smoke", "SLC", 30, 100⟩, ⟨"Pull", "SLC", 60, 100⟩]

/-- Concrete legacy spec for claim C2: one Smoke detector on one circuit. -/
def exC2 : LayoutSpec :=
  { title := "T", panel := ⟨100, 40⟩
    circuits := [⟨"SLC", "B", "black"⟩]
    devices := [⟨"Smoke", "SLC", 30, 100⟩]
    eols := [] }

/-- Concrete legacy spec for claim C3: a declared circuit with no devices and
an EOL entry naming it. -/
def exC3 : LayoutSpec :=
  { title := "T", panel := ⟨100, 40⟩
    circuits := [⟨"C", "B", "black"⟩]
    devices := []
    eols := [⟨"C", 50, none⟩] }

/-- Concrete legacy spec for the C4 counterexample: two devices sharing the
same `x`. -/
def exC4 : LayoutSpec :=
  { title := "T", panel := ⟨100, 40⟩
    circuits := [⟨"SLC", "B", "black"⟩]
    devices := [⟨"Smoke", "SLC", 30, 100⟩, ⟨"Pull", "SLC", 30, 95⟩]
    eols := [] }

/-- Concrete legacy spec for the C4 witness: distinct device `x` values. -/
def exC4b : LayoutSpec :=
  { title := "T", panel := ⟨100, 40⟩
    circuits := [⟨"SLC", "B", "black"⟩]
    devices := [⟨"Smoke", "SLC", 30, 100⟩, ⟨"Pull", "SLC", 35, 95⟩]
    eols := [] }

/-- Permutation of the `exC4b` device list. -/
def exC4devs : List Device :=
  [⟨"Pull", "SLC", 35, 95⟩, ⟨"Smoke", "SLC", 30, 100⟩]

/-- Concrete legacy spec for claim C5: one Smoke detector, no EOL. -/
def exC5 : LayoutSpec :=
  { title := "T", panel := ⟨100, 40⟩
    circuits := [⟨"SLC", "B", "black"⟩]
    devices := [⟨"Smoke", "SLC", 30, 100⟩]
    eols := [] }

/-- Concrete legacy spec for the C6 counterexample: a negative EOL drop. -/
def exC6 : LayoutSpec :=
  { title := "T", panel := ⟨100, 40⟩
    circuits := [⟨"SLC", "B", "black"⟩]
    devices := [⟨"Smoke", "SLC", 30, 100⟩]
    eols := [⟨"SLC", 60, some (-3)⟩] }

/-- Concrete legacy spec for the C6 witness: EOL drop of 7. -/
def exC6w : LayoutSpec :=
  { title := "T", panel := ⟨100, 40⟩
    circuits := [⟨"SLC", "B", "black"⟩]
    devices := [⟨"Smoke", "SLC", 30, 100⟩]
    eols := [⟨"SLC", 60, some 7⟩] }

/-- Concrete declarative spec for claim C7: circuit `X` references panel port
`BOGUS`, but the panel declares only port `SLC`. -/
def exC7 : DSLSpec :=
  { title := "t", laneGap := none
    panel := { id := "FACP", ports := [⟨"SLC", "WEST", "SLC loop"⟩] }
    circuits := [{ id := "X", fromPanel := "FACP", fromPort := "BOGUS"
                   orientation := "WEST", spacing := 40
                   devices := [⟨"Smoke"⟩], endcap := ⟨"EOL", none⟩ }]
    symbols := [("Smoke", ⟨18, 18⟩), ("EOL", ⟨18, 12⟩)] }

/-- Concrete legacy spec for the C8 counterexample: a declared circuit whose
id is the reserved value `"PANEL"`. -/
def exC8 : LayoutSpec :=
  { title := "T", panel := ⟨100, 40⟩
    circuits := [⟨"PANEL", "B", "black"⟩]
    devices := [⟨"Cell", "PANEL", 30, 100⟩]
    eols := [] }

/-- Concrete legacy spec for the C8 witness: a PANEL device next to a normal
circuit. -/
def exC8w : LayoutSpec :=
  { title := "T", panel := ⟨100, 40⟩
    circuits := [⟨"SLC", "B", "black"⟩]
    devices := [⟨"Cell", "PANEL", 30, 100⟩, ⟨"Smoke", "SLC", 60, 100⟩]
    eols := [] }

/-- Concrete legacy spec for the C10 witness: one PANEL stub. -/
def exC10 : LayoutSpec :=
  { title := "T", panel := ⟨100, 40⟩
    circuits := []
    devices := [⟨"Cell", "PANEL", 30, 100⟩]
    eols := [] }

/-! Helper lemmas about the embedding. -/

/-- Rearrangement of a double `max`, used for fold invariance. -/
theorem maxRightComm (a b c : ℤ) : max (max a b) c = max (max a c) b := by
  rw [max_assoc, max_comm b c, ← max_assoc]

/-- Projecting the values out of an index-filtered enumeration gives the
plain filter. -/
theorem map_snd_filter_enumFrom {α : Type} (q : α → Bool) :
    ∀ (n : ℕ) (l : List α),
      ((l.enumFrom n).filter (fun p => q p.2)).map Prod.snd = l.filter q := by
  intro n l
  induction l generalizing n with
  | nil => rfl
  | cons a t ih =>
    by_cases h : q a <;>
      simp [List.enumFrom, List.filter, h, ih]

/-- The indexed circuit filter projects to the plain circuit filter. -/
theorem circuitDevicesIdx_snd (spec : LayoutSpec) (cid : String) :
    (circuitDevicesIdx spec cid).map Prod.snd = circuitDevices spec cid := by
  unfold circuitDevicesIdx circuitDevices List.enum
  exact map_snd_filter_enumFrom (fun d => d.circuit == cid) 0 spec.devices

/-- The sorted visit order is a permutation of the declaration-order filter. -/
theorem busDevices_perm (spec : LayoutSpec) (cid : String) :
    (busDevices spec cid).Perm (circuitDevices spec cid) := by
  have h1 := (List.perm_insertionSort devLe (circuitDevicesIdx spec cid)).map Prod.snd
  rw [circuitDevicesIdx_snd] at h1
  exact h1

/-- A seed already occurring in the list is absorbed by a running `max`. -/
theorem foldl_max_absorb :
    ∀ (l : List ℤ) (a b : ℤ), a ∈ l → l.foldl max (max b a) = l.foldl max b := by
  intro l
  induction l with
  | nil => intro a b h; cases h
  | cons c t ih =>
    intro a b h
    rcases List.mem_cons.mp h with rfl | h2
    · show t.foldl max (max (max b a) a) = t.foldl max (max b a)
      rw [max_assoc, max_self]
    · show t.foldl max (max (max b a) c) = t.foldl max (max b c)
      rw [maxRightComm b a c]
      exact ih a (max b c) h2

/-- The bus-elevation fold is invariant under permutation of the devices. -/
theorem lowestBottom_perm {l1 l2 : List Device} (h : l1.Perm l2) :
    lowestBottomOr100 l1 = lowestBottomOr100 l2 := by
  have hm : (l1.map deviceBottom).Perm (l2.map deviceBottom) := h.map deviceBottom
  unfold lowestBottomOr100
  rcases h1 : l1.map deviceBottom with _ | ⟨b1, t1⟩
  · rcases h2 : l2.map deviceBottom with _ | ⟨b2, t2⟩
    · rfl
    · rw [h1, h2] at hm
      exact absurd hm.length_eq (by simp)
  · rcases h2 : l2.map deviceBottom with _ | ⟨b2, t2⟩
    · rw [h1, h2] at hm
      exact absurd hm.length_eq (by simp)
    · rw [h1, h2] at hm
      show t1.foldl max b1 = t2.foldl max b2
      have e1 : (b1 :: t1).foldl max b1 = t1.foldl max b1 := by
        show t1.foldl max (max b1 b1) = t1.foldl max b1
        rw [max_self]
      have e2 : (b1 :: t1).foldl max b1 = (b2 :: t2).foldl max b1 :=
        hm.foldl_eq b1
      have e3 : (b2 :: t2).foldl max b1 = t2.foldl max (max b1 b2) := rfl
      have hb1 : b1 ∈ b2 :: t2 := hm.mem_iff.mp (List.mem_cons_self b1 t1)
      have e4 : t2.foldl max (max b1 b2) = t2.foldl max b2 := by
        rcases List.mem_cons.mp hb1 with rfl | hm2
        · rw [max_self]
        · rw [max_comm b1 b2]
          exact foldl_max_absorb t2 b1 b2 hm2
      rw [← e1, e2, e3, e4]

/-- The JavaScript truthy-or height agrees with the claim-side bottom offset
(no height in the table is zero). -/
theorem heightOr20_eq_claim (t : String) : heightOr20 t = claimBottomOffset t := by
  unfold heightOr20 claimBottomOffset SYMBOL_SIZES jsNumOr
  split_ifs <;> rfl

/-- The embedded bottom edge agrees with the claim-side bottom edge. -/
theorem deviceBottom_eq_claim (d : Device) :
    deviceBottom d = d.y + claimBottomOffset d.type := by
  unfold deviceBottom
  rw [heightOr20_eq_claim]

/-- The bus visit order is sorted by `x` (nondecreasing). -/
theorem busDevices_sorted (spec : LayoutSpec) (cid : String) :
    List.Pairwise (fun a b : Device => a.x ≤ b.x) (busDevices spec cid) := by
  have h := List.sorted_insertionSort devLe (circuitDevicesIdx spec cid)
  unfold busDevices busDevsIdx
  exact List.pairwise_map.mpr (h.imp (fun hab => hab))

/-- The two bus-elevation computations of the source coincide. -/
theorem busY_eq (spec : LayoutSpec) (cid : String) :
    busYSorted spec cid = busYOf spec cid := by
  unfold busYSorted busYOf
  rw [lowestBottom_perm (busDevices_perm spec cid)]

/-- Past the first device, the loop body emits the uniform three-point
pattern. -/
theorem chain_flat (bY : ℤ) :
    ∀ (l : List Device) (n : ℕ), 0 < n →
      (l.enumFrom n).flatMap (fun p =>
        (if 0 < p.1 then [⟨deviceCenterX p.2, bY⟩] else [])
          ++ [⟨deviceCenterX p.2, p.2.y⟩, (⟨deviceCenterX p.2, bY⟩ : Point)]) =
      l.flatMap (fun d =>
        [⟨deviceCenterX d, bY⟩, ⟨deviceCenterX d, d.y⟩,
         (⟨deviceCenterX d, bY⟩ : Point)]) := by
  intro l
  induction l with
  | nil => intro n h; rfl
  | cons a t ih =>
    intro n h
    show ((n, a) :: t.enumFrom (n + 1)).flatMap _ = _
    rw [List.flatMap_cons, List.flatMap_cons, if_pos h, ih (n + 1) (Nat.succ_pos n)]
    rfl

/-- Unfolding of the device loop for a nonempty device list. -/
theorem deviceChainPoints_cons (bY : ℤ) (d0 : Device) (rest : List Device) :
    deviceChainPoints bY (d0 :: rest) =
      [⟨deviceCenterX d0, d0.y⟩, ⟨deviceCenterX d0, bY⟩]
        ++ rest.flatMap (fun d =>
          [⟨deviceCenterX d, bY⟩, ⟨deviceCenterX d, d.y⟩,
           (⟨deviceCenterX d, bY⟩ : Point)]) := by
  unfold deviceChainPoints
  show ((0, d0) :: rest.enumFrom 1).flatMap _ = _
  rw [List.flatMap_cons, if_neg (lt_irrefl 0), chain_flat bY rest 1 Nat.one_pos]
  rfl

/-- Closed form of the emitted bus polyline: panel attachment, descent to the
bus, then per device (in `x` order) the horizontal move, the drop to
`device.y`, and the return, then the EOL tail. -/
theorem busPoints_eq (spec : LayoutSpec) (cid : String)
    (h : busDevices spec cid ≠ []) :
    busPoints spec cid =
      [panelAttach spec, ⟨panelAttachX spec, busYSorted spec cid⟩]
        ++ (busDevices spec cid).flatMap (fun d =>
          [⟨deviceCenterX d, busYSorted spec cid⟩,
           ⟨deviceCenterX d, d.y⟩,
           (⟨deviceCenterX d, busYSorted spec cid⟩ : Point)])
        ++ eolPoints spec cid (busYSorted spec cid) := by
  rcases hb : busDevices spec cid with _ | ⟨d0, rest⟩
  · exact absurd hb h
  · unfold busPoints
    rw [hb, deviceChainPoints_cons, List.flatMap_cons]
    simp [List.append_assoc]

/-- Every list element appears in its enumeration (at some index). -/
theorem exists_enumFrom_of_mem {α : Type} {a : α} :
    ∀ {l : List α} (n : ℕ), a ∈ l → ∃ i, (i, a) ∈ l.enumFrom n := by
  intro l
  induction l with
  | nil => intro n h; cases h
  | cons b t ih =>
    intro n h
    rcases List.mem_cons.mp h with rfl | h2
    · exact ⟨n, List.mem_cons_self _ _⟩
    · obtain ⟨i, hi⟩ := ih (n + 1) h2
      exact ⟨i, List.mem_cons_of_mem _ hi⟩

/-! Claim theorems. -/

/-- Claim C1: for every legacy spec and circuit with at least one device, the
manual router computes the bus elevation as the maximum over the devices of
the circuit of `device.y + bottom offset of the symbol type` (20 when
unknown) plus the fixed clearance 5, and the value is invariant under
permutation of the device declaration order. -/
theorem C1_bus_elevation (spec : LayoutSpec) (cid : String) (devs' : List Device)
    (hp : spec.devices.Perm devs') (h : circuitDevices spec cid ≠ []) :
    busYSorted spec cid = claimBusElevation spec cid ∧
    busYSorted { spec with devices := devs' } cid = busYSorted spec cid := by
  constructor
  · have hlb := lowestBottom_perm (busDevices_perm spec cid)
    rcases hc : circuitDevices spec cid with _ | ⟨d0, rest⟩
    · exact absurd hc h
    · have hfun : deviceBottom = fun d => d.y + claimBottomOffset d.type :=
        funext deviceBottom_eq_claim
      unfold busYSorted claimBusElevation
      rw [hlb, hc]
      unfold lowestBottomOr100
      rw [hfun]
      rfl
  · have hcf : (circuitDevices { spec with devices := devs' } cid).Perm
        (circuitDevices spec cid) := by
      unfold circuitDevices
      exact (hp.filter (fun d => d.circuit == cid)).symm
    have hperm : (busDevices { spec with devices := devs' } cid).Perm
        (busDevices spec cid) :=
      ((busDevices_perm { spec with devices := devs' } cid).trans hcf).trans
        (busDevices_perm spec cid).symm
    unfold busYSorted
    rw [lowestBottom_perm hperm]

/-- Claim C1 witness: the theorem applied to a concrete two-device circuit
(declared right-to-left) and a permutation of its device list. -/
theorem C1_bus_elevation_witness :
    busYSorted exC1 "SLC" = claimBusElevation exC1 "SLC" ∧
    busYSorted { exC1 with devices := exC1devs } "SLC" = busYSorted exC1 "SLC" :=
  C1_bus_elevation exC1 "SLC" exC1devs (by decide) (by decide)

/-- Claim C2 (amended): when the external engine throws, `elkLayout` returns
`createManualLayout` (the failure is never propagated); the fallback has one
node for the panel and one per device, and for every circuit device one
straight two-point path from the panel center-bottom attachment to the
top-center of the device (`device.y`, not the device center). -/
theorem C2_fallback (spec : LayoutSpec) :
    elkLayout true spec = createManualLayout spec ∧
    (createManualLayout spec).nodes.map Prod.fst =
      "panel" :: spec.devices.enum.map (fun p => "device-" ++ toString p.1) ∧
    (∀ c ∈ spec.circuits, ∀ q ∈ circuitDevicesIdx spec c.id,
      ∃ e ∈ (createManualLayout spec).edges,
        e.target = "device-" ++ toString q.1 ∧
        e.bendPoints = [panelAttach spec, ⟨deviceCenterX q.2, q.2.y⟩]) := by
  refine ⟨rfl, ?_, ?_⟩
  · show (panelNode spec :: deviceNodes spec).map Prod.fst = _
    unfold panelNode deviceNodes
    rw [List.map_cons, List.map_map]
    rfl
  · intro c hc q hq
    obtain ⟨j, hj⟩ := exists_enumFrom_of_mem 0 hq
    refine ⟨{ id := c.id ++ "-" ++ toString j
              source := "panel"
              target := "device-" ++ toString q.1
              bendPoints := [panelAttach spec, ⟨deviceCenterX q.2, q.2.y⟩]
              color := c.color }, ?_, rfl, rfl⟩
    show _ ∈ spec.circuits.flatMap _
    refine List.mem_flatMap.mpr ⟨c, hc, ?_⟩
    exact List.mem_map.mpr ⟨(j, q), hj, rfl⟩

/-- Claim C2 counterexample: on a concrete spec the fallback path ends at the
top-center of the device, `(37, 100)`, not at the device center
`(37, 107)` the claim states. -/
theorem C2_fallback_counterexample :
    (elkLayout true exC2).edges.map EdgeOut.bendPoints =
      [[⟨120, 60⟩, ⟨37, 100⟩]] ∧
    claimDeviceCenter ⟨"Smoke", "SLC", 30, 100⟩ = ⟨37, 107⟩ ∧
    (⟨37, 100⟩ : Point) ≠ claimDeviceCenter ⟨"Smoke", "SLC", 30, 100⟩ := by
  refine ⟨by decide, by decide, by decide⟩

/-- Claim C2 witness: the amended theorem applied to a concrete spec and its
single circuit device. -/
theorem C2_fallback_witness :
    elkLayout true exC2 = createManualLayout exC2 ∧
    (∃ e ∈ (createManualLayout exC2).edges,
      e.target = "device-" ++ toString (0 : ℕ) ∧
      e.bendPoints = [panelAttach exC2,
        ⟨deviceCenterX ⟨"Smoke", "SLC", 30, 100⟩,
         (⟨"Smoke", "SLC", 30, 100⟩ : Device).y⟩]) := by
  obtain ⟨h1, _, h3⟩ := C2_fallback exC2
  exact ⟨h1, h3 ⟨"SLC", "B", "black"⟩ (by decide)
    (0, ⟨"Smoke", "SLC", 30, 100⟩) (by decide)⟩

/-- Claim C3 (amended): a declared circuit with no devices emits no bus path
and an empty polyline, and an EOL entry naming an undeclared circuit
produces no node (every EOL node stems from an entry whose circuit is
declared); but an EOL entry naming a declared device-less circuit still
produces an EOL node, placed from the default bottom 100 (bus elevation
105). -/
theorem C3_empty_circuit (spec : LayoutSpec) (c : Circuit) (hc : c ∈ spec.circuits)
    (he : circuitDevices spec c.id = []) :
    busEdge spec c = none ∧
    busPoints spec c.id = [] ∧
    busYOf spec c.id = 105 ∧
    (∀ nb ∈ eolNodes spec, ∃ p ∈ spec.eols.enum,
        spec.circuits.any (fun c2 => c2.id == p.2.circuit) = true ∧
        nb = ("eol-" ++ toString p.1,
              ⟨p.2.x - 6, busYOf spec p.2.circuit + dropLen p.2 - 3, 12, 6⟩)) ∧
    (∀ p ∈ spec.eols.enum, p.2.circuit = c.id →
        ("eol-" ++ toString p.1,
         (⟨p.2.x - 6, 102 + dropLen p.2, 12, 6⟩ : NodeBox)) ∈ (elkSuccess spec).nodes) := by
  have hidx : circuitDevicesIdx spec c.id = [] := by
    have h2 := circuitDevicesIdx_snd spec c.id
    rw [he] at h2
    exact List.map_eq_nil_iff.mp h2
  have hbidx : busDevsIdx spec c.id = [] := by
    unfold busDevsIdx
    rw [hidx]
    rfl
  have hbdev : busDevices spec c.id = [] := by
    unfold busDevices
    rw [hbidx]
    rfl
  have hby : busYOf spec c.id = 105 := by
    unfold busYOf
    rw [he]
    rfl
  refine ⟨?_, ?_, hby, ?_, ?_⟩
  · unfold busEdge
    rw [hbidx]
  · unfold busPoints
    rw [hbdev]
  · intro nb hnb
    obtain ⟨p, hp, hsome⟩ := List.mem_filterMap.mp hnb
    by_cases hcond : spec.circuits.any (fun c2 => c2.id == p.2.circuit) = true
    · rw [if_pos hcond] at hsome
      exact ⟨p, hp, hcond, (Option.some_inj.mp hsome).symm⟩
    · rw [if_neg hcond] at hsome
      cases hsome
  · intro p hp hpc
    have hcond : spec.circuits.any (fun c2 => c2.id == p.2.circuit) = true :=
      List.any_eq_true.mpr ⟨c, hc, by rw [hpc]; exact beq_self_eq_true c.id⟩
    have hnode : ("eol-" ++ toString p.1,
        (⟨p.2.x - 6, busYOf spec p.2.circuit + dropLen p.2 - 3, 12, 6⟩ : NodeBox))
        ∈ eolNodes spec :=
      List.mem_filterMap.mpr ⟨p, hp, by rw [if_pos hcond]⟩
    have hval : busYOf spec p.2.circuit + dropLen p.2 - 3 = 102 + dropLen p.2 := by
      rw [hpc, hby]
      omega
    rw [hval] at hnode
    show _ ∈ panelNode spec :: (deviceNodes spec ++ eolNodes spec)
    exact List.mem_cons_of_mem _ (List.mem_append.mpr (Or.inr hnode))

/-- Claim C3 counterexample: a declared circuit `C` with no devices and an
EOL entry naming it; the compile still creates node `eol-0` at
`(44, 106)`, refuting the claim that no node is created. -/
theorem C3_empty_circuit_counterexample :
    circuitDevices exC3 "C" = [] ∧
    ("eol-0", (⟨44, 106, 12, 6⟩ : NodeBox)) ∈ (elkSuccess exC3).nodes ∧
    ((elkSuccess exC3).nodes.map Prod.fst) = ["panel", "eol-0"] := by
  refine ⟨by decide, by decide, by decide⟩

/-- Claim C3 witness: the amended theorem applied to the concrete
device-less circuit. -/
theorem C3_empty_circuit_witness :
    busEdge exC3 ⟨"C", "B", "black"⟩ = none ∧
    busPoints exC3 "C" = [] ∧
    busYOf exC3 "C" = 105 ∧
    (∀ nb ∈ eolNodes exC3, ∃ p ∈ exC3.eols.enum,
        exC3.circuits.any (fun c2 => c2.id == p.2.circuit) = true ∧
        nb = ("eol-" ++ toString p.1,
              ⟨p.2.x - 6, busYOf exC3 p.2.circuit + dropLen p.2 - 3, 12, 6⟩)) ∧
    (∀ p ∈ exC3.eols.enum, p.2.circuit = "C" →
        ("eol-" ++ toString p.1,
         (⟨p.2.x - 6, 102 + dropLen p.2, 12, 6⟩ : NodeBox)) ∈ (elkSuccess exC3).nodes) :=
  C3_empty_circuit exC3 ⟨"C", "B", "black"⟩ (by decide) (by decide)

/-- Claim C4 (amended): the polyline visits the devices of the circuit in
nondecreasing `x` order — unconditionally, for every legacy spec and
circuit; when the `x` coordinates of the devices of the circuit are
pairwise distinct, the order is moreover strictly increasing and
independent of the declaration order. -/
theorem C4_bus_x_order (spec : LayoutSpec) (cid : String) :
    List.Pairwise (fun a b : Device => a.x ≤ b.x) (busDevices spec cid) ∧
    (((circuitDevices spec cid).map Device.x).Nodup →
      List.Pairwise (fun a b : Device => a.x < b.x) (busDevices spec cid) ∧
      ∀ devs' : List Device, spec.devices.Perm devs' →
        busDevices { spec with devices := devs' } cid = busDevices spec cid) := by
  have hmono : ∀ (s : LayoutSpec),
      List.Pairwise (fun a b : Device => a.x ≤ b.x) (busDevices s cid) :=
    fun s => busDevices_sorted s cid
  have strict : ∀ (s : LayoutSpec),
      ((circuitDevices s cid).map Device.x).Nodup →
      List.Pairwise (fun a b : Device => a.x < b.x) (busDevices s cid) := by
    intro s hnd
    have hpm : ((busDevices s cid).map Device.x).Perm
        ((circuitDevices s cid).map Device.x) :=
      (busDevices_perm s cid).map Device.x
    have hnd2 : ((busDevices s cid).map Device.x).Nodup :=
      (hpm.nodup_iff).mpr hnd
    have hne : List.Pairwise (fun a b : Device => a.x ≠ b.x) (busDevices s cid) :=
      List.pairwise_map.mp hnd2
    exact ((hmono s).and hne).imp (fun hab => lt_of_le_of_ne hab.1 hab.2)
  refine ⟨hmono spec, fun hx => ⟨strict spec hx, ?_⟩⟩
  intro devs' hp
  have hcf : (circuitDevices { spec with devices := devs' } cid).Perm
      (circuitDevices spec cid) := by
    unfold circuitDevices
    exact (hp.filter (fun d => d.circuit == cid)).symm
  have hx' : ((circuitDevices { spec with devices := devs' } cid).map Device.x).Nodup :=
    ((hcf.map Device.x).nodup_iff).mpr hx
  have hperm : (busDevices { spec with devices := devs' } cid).Perm
      (busDevices spec cid) :=
    ((busDevices_perm { spec with devices := devs' } cid).trans hcf).trans
      (busDevices_perm spec cid).symm
  haveI : IsAntisymm Device (fun a b : Device => a.x < b.x) :=
    ⟨fun a b h1 h2 => absurd (lt_trans h1 h2) (lt_irrefl _)⟩
  exact List.eq_of_perm_of_sorted hperm (strict _ hx') (strict spec hx)

/-- Claim C4 counterexample: two devices of the same circuit share
`x = 30`; the polyline visits them with equal `x`, so the visit order is
not strictly increasing. -/
theorem C4_bus_x_order_counterexample :
    ((busDevices exC4 "SLC").map Device.x) = [30, 30] ∧
    ¬ List.Pairwise (fun a b : Device => a.x < b.x) (busDevices exC4 "SLC") := by
  constructor
  · decide
  · intro hpw
    have h30 : ¬ ((30 : ℤ) < 30) := by decide
    have hb : busDevices exC4 "SLC" =
        [⟨"Smoke", "SLC", 30, 100⟩, ⟨"Pull", "SLC", 30, 95⟩] := by decide
    rw [hb] at hpw
    exact h30 (List.rel_of_pairwise_cons hpw (List.mem_singleton.mpr rfl))

/-- Claim C4 witness: the theorem applied to a concrete circuit with
distinct `x` coordinates and a permutation of its device list, and — for
the unconditional nondecreasing clause — also to the concrete equal-`x`
circuit of the counterexample. -/
theorem C4_bus_x_order_witness :
    List.Pairwise (fun a b : Device => a.x ≤ b.x) (busDevices exC4 "SLC") ∧
    List.Pairwise (fun a b : Device => a.x ≤ b.x) (busDevices exC4b "SLC") ∧
    List.Pairwise (fun a b : Device => a.x < b.x) (busDevices exC4b "SLC") ∧
    busDevices { exC4b with devices := exC4devs } "SLC" = busDevices exC4b "SLC" := by
  obtain ⟨h1, h2⟩ := C4_bus_x_order exC4b "SLC"
  obtain ⟨h3, h4⟩ := h2 (by decide)
  exact ⟨(C4_bus_x_order exC4 "SLC").1, h1, h3, h4 exC4devs (by decide)⟩

/-- Claim C5 (amended): for a circuit with at least one device the emitted
polyline is the panel attachment point, the descent to the bus elevation,
then for each device in `x` order the horizontal move to the device wire
`x`, a vertical drop terminating at `device.y` (the top edge, not the
bottom edge the claim states), the return to the bus, and finally the EOL
tail when an EOL entry names the circuit. -/
theorem C5_bus_polyline (spec : LayoutSpec) (cid : String)
    (h : busDevices spec cid ≠ []) :
    busPoints spec cid =
      [panelAttach spec, ⟨panelAttachX spec, busYSorted spec cid⟩]
        ++ (busDevices spec cid).flatMap (fun d =>
          [⟨deviceCenterX d, busYSorted spec cid⟩,
           ⟨deviceCenterX d, d.y⟩,
           (⟨deviceCenterX d, busYSorted spec cid⟩ : Point)])
        ++ eolPoints spec cid (busYSorted spec cid) :=
  busPoints_eq spec cid h

/-- Claim C5 counterexample: on a concrete one-device circuit the emitted
polyline drops to `y = 100` (the device top) while the sequence stated by
the claim drops to the bottom edge `y = 114`; the two differ. -/
theorem C5_bus_polyline_counterexample :
    busPoints exC5 "SLC" =
      [⟨120, 60⟩, ⟨120, 119⟩, ⟨37, 119⟩, ⟨37, 100⟩, ⟨37, 119⟩] ∧
    claimBusPolyline exC5 "SLC" =
      [⟨120, 60⟩, ⟨120, 119⟩, ⟨37, 119⟩, ⟨37, 114⟩, ⟨37, 119⟩] ∧
    busPoints exC5 "SLC" ≠ claimBusPolyline exC5 "SLC" := by
  refine ⟨by decide, by decide, by decide⟩

/-- Claim C5 witness: the amended theorem applied to the concrete one-device
circuit. -/
theorem C5_bus_polyline_witness :
    busPoints exC5 "SLC" =
      [panelAttach exC5, ⟨panelAttachX exC5, busYSorted exC5 "SLC"⟩]
        ++ (busDevices exC5 "SLC").flatMap (fun d =>
          [⟨deviceCenterX d, busYSorted exC5 "SLC"⟩,
           ⟨deviceCenterX d, d.y⟩,
           (⟨deviceCenterX d, busYSorted exC5 "SLC"⟩ : Point)])
        ++ eolPoints exC5 "SLC" (busYSorted exC5 "SLC") :=
  C5_bus_polyline exC5 "SLC" (by decide)

/-- Claim C6 (amended): for a circuit with devices and a first EOL entry
naming it, the polyline ends with the vertical segment from the bus
elevation to the attachment point of the EOL; its length is exactly the
specified drop when that drop is nonzero (whatever its sign), and 4 when
the drop is missing or zero; the drop is positive provided the specified
value is nonnegative, and the code does not itself reject a negative drop:
a negative specified drop yields a negative (upward) drop. -/
theorem C6_eol_drop (spec : LayoutSpec) (cid : String) (e : EOL)
    (h : busDevices spec cid ≠ [])
    (hfind : findEOL spec cid = some e) :
    (∃ pts, busPoints spec cid =
        pts ++ [⟨e.x, busYSorted spec cid⟩,
                ⟨e.x, busYSorted spec cid + dropLen e⟩]) ∧
    (∀ v, e.drop = some v → v ≠ 0 → dropLen e = v) ∧
    (e.drop = none → dropLen e = 4) ∧
    (e.drop = some 0 → dropLen e = 4) ∧
    ((∀ v, e.drop = some v → 0 ≤ v) → 0 < dropLen e) ∧
    (∀ v, e.drop = some v → v < 0 → dropLen e < 0) := by
  refine ⟨?_, ?_, ?_, ?_, ?_, ?_⟩
  · rcases hb : busDevices spec cid with _ | ⟨d0, rest⟩
    · exact absurd hb h
    · refine ⟨[panelAttach spec,
        ⟨panelAttachX spec, busYSorted spec cid⟩,
        ⟨deviceCenterX d0, busYSorted spec cid⟩]
          ++ deviceChainPoints (busYSorted spec cid) (busDevices spec cid), ?_⟩
      unfold busPoints eolPoints
      rw [hb, hfind]
  · intro v hv hnz
    unfold dropLen jsNumOr
    rw [hv]
    show (if v = 0 then (4 : ℤ) else v) = v
    exact if_neg hnz
  · intro hv
    unfold dropLen jsNumOr
    rw [hv]
  · intro hv
    unfold dropLen jsNumOr
    rw [hv]
    show (if (0 : ℤ) = 0 then (4 : ℤ) else 0) = 4
    exact if_pos rfl
  · intro hnn
    unfold dropLen jsNumOr
    rcases hd : e.drop with _ | v
    · decide
    · have hv := hnn v hd
      show 0 < if v = 0 then (4 : ℤ) else v
      by_cases hz : v = 0
      · rw [if_pos hz]
        decide
      · rw [if_neg hz]
        omega
  · intro v hv hneg
    unfold dropLen jsNumOr
    rw [hv]
    show (if v = 0 then (4 : ℤ) else v) < 0
    rw [if_neg (by omega : ¬ v = 0)]
    exact hneg

/-- Claim C6 counterexample: with a specified drop of `-3` the final bus
segment runs from `y = 119` up to `y = 116`, a negative drop, refuting the
claim that the drop length is never negative. -/
theorem C6_eol_drop_counterexample :
    (busPoints exC6 "SLC").getLast? = some ⟨60, 116⟩ ∧
    (busPoints exC6 "SLC").dropLast.getLast? = some ⟨60, 119⟩ ∧
    dropLen ⟨"SLC", 60, some (-3)⟩ = -3 ∧
    ¬ (0 ≤ (-3 : ℤ)) := by
  refine ⟨by decide, by decide, by decide, by decide⟩

/-- Claim C6 witness: the amended theorem applied to a concrete spec with a
specified drop of 7. -/
theorem C6_eol_drop_witness :
    (∃ pts, busPoints exC6w "SLC" =
        pts ++ [⟨60, busYSorted exC6w "SLC"⟩,
                ⟨60, busYSorted exC6w "SLC" + dropLen ⟨"SLC", 60, some 7⟩⟩]) ∧
    (∀ v, (some (7 : ℤ)) = some v → v ≠ 0 → dropLen ⟨"SLC", 60, some 7⟩ = v) ∧
    ((some (7 : ℤ)) = none → dropLen ⟨"SLC", 60, some 7⟩ = 4) ∧
    ((some (7 : ℤ)) = some 0 → dropLen ⟨"SLC", 60, some 7⟩ = 4) ∧
    ((∀ v, (some (7 : ℤ)) = some v → 0 ≤ v) → 0 < dropLen ⟨"SLC", 60, some 7⟩) ∧
    (∀ v, (some (7 : ℤ)) = some v → v < 0 → dropLen ⟨"SLC", 60, some 7⟩ < 0) :=
  C6_eol_drop exC6w "SLC" ⟨"SLC", 60, some 7⟩ (by decide) (by decide)

/-- Claim C7: the declarative compiler performs no missing-port check.  On
the concrete spec `exC7`, the graph handed to the external engine contains
an edge whose source port `FACP.BOGUS` is not among the declared panel
ports, and the full graph (two edges, two nodes) is built; no configuration
error exists in the builder, which is a total function. -/
theorem C7_missing_port :
    some "FACP.BOGUS" ∈ (dslEdges exC7).map DslEdge.sourcePort ∧
    "FACP.BOGUS" ∉ panelPortIds exC7 ∧
    (dslEdges exC7).length = 2 ∧
    (dslNodes exC7).length = 2 := by
  refine ⟨by decide, by decide, by decide, by decide⟩

/-- Claim C8 (amended): provided no declared circuit uses the reserved id
`"PANEL"`, devices with circuit id `"PANEL"` never occur among the devices
visited by any bus polyline; there is exactly one stub per PANEL device,
each a three-point path (panel attachment, panel attachment `x` at the
device `y`, device wire `x` at the device `y`), colored black and rendered
undashed. -/
theorem C8_panel_stubs (spec : LayoutSpec)
    (hres : "PANEL" ∉ spec.circuits.map Circuit.id) :
    (∀ c ∈ spec.circuits, ∀ d ∈ busDevices spec c.id, d.circuit ≠ "PANEL") ∧
    (panelStubs spec).length = (circuitDevicesIdx spec "PANEL").length ∧
    (∀ e ∈ panelStubs spec, ∃ q ∈ circuitDevicesIdx spec "PANEL",
        e.bendPoints =
          [panelAttach spec, ⟨panelAttachX spec, q.2.y⟩,
           ⟨deviceCenterX q.2, q.2.y⟩] ∧
        e.bendPoints.length = 3 ∧ e.color = "black") ∧
    (∀ q ∈ circuitDevicesIdx spec "PANEL",
        ∃ e ∈ panelStubs spec, e.target = "device-" ++ toString q.1) ∧
    appDashArray none = none := by
  refine ⟨?_, ?_, ?_, ?_, rfl⟩
  · intro c hc d hd
    have hd2 : d ∈ circuitDevices spec c.id :=
      (busDevices_perm spec c.id).mem_iff.mp hd
    have hdc : d.circuit = c.id := by
      have := List.of_mem_filter hd2
      exact eq_of_beq this
    intro hP
    rw [hdc] at hP
    exact hres (hP ▸ List.mem_map.mpr ⟨c, hc, rfl⟩)
  · unfold panelStubs
    rw [List.length_map, List.enum_length]
  · intro e he
    obtain ⟨pq, hpq, rfl⟩ := List.mem_map.mp he
    exact ⟨pq.2, List.snd_mem_of_mem_enumFrom hpq, rfl, rfl, rfl⟩
  · intro q hq
    obtain ⟨j, hj⟩ := exists_enumFrom_of_mem 0 hq
    exact ⟨_, List.mem_map.mpr ⟨(j, q), hj, rfl⟩, rfl⟩

/-- Claim C8 counterexample: a spec that declares a circuit literally named
`"PANEL"`; its PANEL device then appears on a bus polyline (`PANEL-bus`),
refuting the claim as stated for arbitrary legacy specs. -/
theorem C8_panel_stubs_counterexample :
    ((elkSuccess exC8).edges.map EdgeOut.id) = ["PANEL-bus", "panel-stub-0"] ∧
    busDevices exC8 "PANEL" = [⟨"Cell", "PANEL", 30, 100⟩] ∧
    busPoints exC8 "PANEL" =
      [⟨120, 60⟩, ⟨120, 120⟩, ⟨45, 120⟩, ⟨45, 100⟩, ⟨45, 120⟩] := by
  refine ⟨by decide, by decide, by decide⟩

/-- Claim C8 witness: the amended theorem applied to a concrete spec with one
PANEL device and one normal circuit. -/
theorem C8_panel_stubs_witness :
    (∀ c ∈ exC8w.circuits, ∀ d ∈ busDevices exC8w c.id, d.circuit ≠ "PANEL") ∧
    (panelStubs exC8w).length = (circuitDevicesIdx exC8w "PANEL").length ∧
    (∀ e ∈ panelStubs exC8w, ∃ q ∈ circuitDevicesIdx exC8w "PANEL",
        e.bendPoints =
          [panelAttach exC8w, ⟨panelAttachX exC8w, q.2.y⟩,
           ⟨deviceCenterX q.2, q.2.y⟩] ∧
        e.bendPoints.length = 3 ∧ e.color = "black") ∧
    (∀ q ∈ circuitDevicesIdx exC8w "PANEL",
        ∃ e ∈ panelStubs exC8w, e.target = "device-" ++ toString q.1) ∧
    appDashArray none = none :=
  C8_panel_stubs exC8w (by decide)

/-- Claim C9: a rendered path receives the dashed stroke exactly when its
circuit identifier is present and begins with the notification prefix
`NAC`; every other path is solid (the only two outcomes of the style
decision). -/
theorem C9_dash_rule (cid : Option String) :
    ((appDashArray cid).isSome = true ↔
      ∃ s, cid = some s ∧ jsStartsWith s "NAC" = true) ∧
    (appDashArray cid = none ∨ appDashArray cid = some "3,2") := by
  cases cid with
  | none =>
    refine ⟨?_, Or.inl rfl⟩
    constructor
    · intro h
      cases h
    · rintro ⟨s, hs, _⟩
      cases hs
  | some s =>
    have key : appDashArray (some s) =
        if (s == "NAC1" || jsStartsWith s "NAC") = true then some "3,2"
        else none := rfl
    constructor
    · constructor
      · intro h
        refine ⟨s, rfl, ?_⟩
        rw [key] at h
        by_cases hb : (s == "NAC1" || jsStartsWith s "NAC") = true
        · cases hbeq : (s == "NAC1") with
          | true =>
            rw [eq_of_beq hbeq]
            decide
          | false =>
            rw [hbeq, Bool.false_or] at hb
            exact hb
        · rw [if_neg hb] at h
          cases h
      · rintro ⟨t, ht, hsw⟩
        have hts : t = s := (Option.some_inj.mp ht).symm
        subst hts
        rw [key, if_pos (by rw [hsw, Bool.or_true])]
        rfl
    · rw [key]
      by_cases hb : (s == "NAC1" || jsStartsWith s "NAC") = true
      · rw [if_pos hb]
        exact Or.inr rfl
      · rw [if_neg hb]
        exact Or.inl rfl

/-- Claim C9 witness: the rule evaluated at the concrete identifier
`NAC2`. -/
theorem C9_dash_rule_witness :
    ((appDashArray (some "NAC2")).isSome = true ↔
      ∃ s, some "NAC2" = some s ∧ jsStartsWith s "NAC" = true) ∧
    (appDashArray (some "NAC2") = none ∨ appDashArray (some "NAC2") = some "3,2") :=
  C9_dash_rule (some "NAC2")

/-- Claim C10: every path emitted by the manual routing code, in both the
success branch (bus polylines and PANEL stubs) and the solver-failure
fallback, begins at the panel attachment point
`(panel.x + FACP.width / 2, panel.y + FACP.height)`. -/
theorem C10_paths_start_at_panel (spec : LayoutSpec) (b : Bool) :
    ∀ e ∈ (elkLayout b spec).edges, e.bendPoints.head? = some (panelAttach spec) := by
  intro e he
  cases b
  · replace he : e ∈ (elkSuccess spec).edges := he
    rcases List.mem_append.mp he with h1 | h2
    · obtain ⟨c, _, hbe⟩ := List.mem_filterMap.mp h1
      unfold busEdge at hbe
      rcases hdevs : busDevsIdx spec c.id with _ | ⟨d0, rest⟩ <;> rw [hdevs] at hbe
      · cases hbe
      · have hbd : busDevices spec c.id = d0.2 :: rest.map Prod.snd := by
          unfold busDevices
          rw [hdevs]
          rfl
        have hbp : e.bendPoints = busPoints spec c.id :=
          congrArg EdgeOut.bendPoints (Option.some_inj.mp hbe).symm
        rw [hbp]
        unfold busPoints
        rw [hbd]
        rfl
    · obtain ⟨pq, _, rfl⟩ := List.mem_map.mp h2
      rfl
  · replace he : e ∈ (createManualLayout spec).edges := he
    obtain ⟨c, _, hme⟩ := List.mem_flatMap.mp he
    obtain ⟨pq, _, rfl⟩ := List.mem_map.mp hme
    rfl

/-- Claim C10 witness: the theorem applied to a concrete PANEL stub edge of
the success branch. -/
theorem C10_paths_start_at_panel_witness :
    ({ id := "panel-stub-0", source := "panel", target := "device-0"
       bendPoints := [⟨120, 60⟩, ⟨120, 100⟩, ⟨45, 100⟩]
       color := "black" } : EdgeOut).bendPoints.head? = some (panelAttach exC10) :=
  C10_paths_start_at_panel exC10 false
    { id := "panel-stub-0", source := "panel", target := "device-0"
      bendPoints := [⟨120, 60⟩, ⟨120, 100⟩, ⟨45, 100⟩]
      color := "black" } (by decide)

end Riser
